import Mathlib

/-!
Verification of the analysis and sample-data core of the
`colab_and_economics` repository against its specification.

The embedding below mirrors `src/src/data_fetchers.py`,
`src/src/analysis_utils.py` and `src/src/__init__.py`.  Numeric values are
modelled over the rationals (floating point is replaced by exact
arithmetic); NaN entries of a pandas Series are modelled by `Option`;
Python exceptions are modelled by `Except PyError`.  The pseudo-random
generator of numpy is modelled abstractly: seeding with a constant `k`
installs a deterministic stream of standard-normal draws `mt k`, and
`np.random.normal(mu, sigma, n)` consumes `n` draws from the current
position of that stream.  The floating-point exponential used for the gdp
column is likewise an abstract parameter `rexp`; the claims never depend
on its values.
-/

/-- A Python error, as observed at the call boundary.  `valueError` models a
`ValueError` raised by a library routine, `importError` models an
`ImportError` naming the offending symbol. -/
inductive PyError where
  | valueError : String → PyError
  | importError : String → PyError
deriving DecidableEq

/-- A calendar date (year, month, day), the index values of the panel. -/
structure Date where
  year : Int
  month : Nat
  day : Nat
deriving DecidableEq

/-- Gregorian leap-year rule. -/
def isLeap (y : Int) : Bool :=
  y % 4 == 0 && (y % 100 != 0 || y % 400 == 0)

/-- Number of days of month `m` of year `y` (months outside 1..12 get 0). -/
def daysInMonth (y : Int) (m : Nat) : Nat :=
  if m = 1 then 31 else if m = 2 then (if isLeap y then 29 else 28)
  else if m = 3 then 31 else if m = 4 then 30 else if m = 5 then 31
  else if m = 6 then 30 else if m = 7 then 31 else if m = 8 then 31
  else if m = 9 then 30 else if m = 10 then 31 else if m = 11 then 30
  else if m = 12 then 31 else 0

/-- The last day of month `m` of year `y`. -/
def monthEnd (y : Int) (m : Nat) : Date :=
  ⟨y, m, daysInMonth y m⟩

/-- The month following month `m` of year `y`. -/
def nextMonth (y : Int) (m : Nat) : Int × Nat :=
  if m = 12 then (y + 1, 1) else (y, m + 1)

/-- The list of `k` successive month-end dates starting with the end of
month `m` of year `y`. -/
def monthEnds (y : Int) (m : Nat) : Nat → List Date
  | 0 => []
  | k + 1 => monthEnd y m :: monthEnds (nextMonth y m).1 (nextMonth y m).2 k

/-- Embedding of `pd.date_range(start, periods=n, freq=M)`: month-end
frequency.  The first element is the last day of the month containing
`start` (the first month end on or after `start`).  With the offset-based
frequency `M`, a zero or negative period count does not raise: the
generator simply yields nothing, returning an empty index. -/
def date_range_M (start : Date) (n : Int) : List Date :=
  monthEnds start.year start.month n.toNat

/-- State of the numpy global pseudo-random generator: a deterministic
stream of standard-normal draws together with the current position. -/
structure RNG where
  stream : Nat → ℚ
  pos : Nat

/-- Embedding of `np.random.seed(k)`: the previous state is discarded and
replaced by the deterministic stream `mt k` attached to the seed `k`. -/
def np_seed (mt : Nat → Nat → ℚ) (k : Nat) (_ : RNG) : RNG :=
  ⟨mt k, 0⟩

/-- The draws taken by `np.random.normal(mu, sigma, size)` for a
non-negative size: scales and shifts the next `size` standard-normal draws
of the stream and advances the position. -/
def np_draws (mu sigma : ℚ) (size : Nat) (s : RNG) : List ℚ × RNG :=
  ((List.range size).map (fun i => mu + sigma * s.stream (s.pos + i)),
   ⟨s.stream, s.pos + size⟩)

/-- Embedding of `np.random.normal(mu, sigma, size)`: a negative size
raises `ValueError: negative dimensions are not allowed`, as numpy does;
otherwise the draws are taken from the stream. -/
def np_normal (mu sigma : ℚ) (size : Int) (s : RNG) :
    Except PyError (List ℚ × RNG) :=
  if size < 0 then
    .error (.valueError "negative dimensions are not allowed")
  else
    .ok (np_draws mu sigma size.toNat s)

/-- Embedding of `np.cumsum` (running sums), via an accumulator. -/
def cumsumAux (acc : ℚ) : List ℚ → List ℚ
  | [] => []
  | x :: xs => (acc + x) :: cumsumAux (acc + x) xs

/-- Embedding of `np.cumsum` on a list of rationals. -/
def cumsum (xs : List ℚ) : List ℚ :=
  cumsumAux 0 xs

/-- Embedding of `np.clip(x, lo, hi)` on a scalar. -/
def clipQ (lo hi x : ℚ) : ℚ :=
  min (max x lo) hi

/-- The panel produced by `create_sample_data`: a date index and four
named numeric columns. -/
structure SampleFrame where
  index : List Date
  gdp : List ℚ
  unemployment_rate : List ℚ
  inflation_rate : List ℚ
  interest_rate : List ℚ
deriving DecidableEq

/-- Embedding of `create_sample_data(n_periods, start_date)` from
`src/src/data_fetchers.py`.  `mt` is the abstract seed-to-stream map of
the numpy generator, `rexp` the abstract floating-point exponential, and
`rng` the incoming global generator state (overwritten at once by
`np.random.seed(42)`).  The four normal draws happen in source order,
sequentially consuming the seeded stream. -/
def create_sample_data (mt : Nat → Nat → ℚ) (rexp : ℚ → ℚ) (rng : RNG)
    (n_periods : Int) (start_date : Date) : Except PyError SampleFrame :=
  let rng1 := np_seed mt 42 rng
  let dates := date_range_M start_date n_periods
  match np_normal 0.02 0.01 n_periods rng1 with
  | .error e => .error e
  | .ok p1 =>
    let gdp_growth := cumsum p1.1
    let gdp := gdp_growth.map (fun g => 20000 * rexp g)
    match np_normal 0 0.5 n_periods p1.2 with
    | .error e => .error e
    | .ok p2 =>
      let unemployment :=
        (cumsum p2.1).map (fun u => clipQ 2 15 (5 + u * 0.1))
      match np_normal 0 0.3 n_periods p2.2 with
      | .error e => .error e
      | .ok p3 =>
        let inflation := p3.1.map (fun z => 2 + z)
        match np_normal 0 0.5 n_periods p3.2 with
        | .error e => .error e
        | .ok p4 =>
          let interest_rate := p4.1.map (fun z => max 0 (2 + z))
          .ok { index := dates, gdp := gdp,
                unemployment_rate := unemployment,
                inflation_rate := inflation,
                interest_rate := interest_rate }

/-- Embedding of `Series.dropna`: keep the defined entries. -/
def dropna (s : List (Option ℚ)) : List ℚ :=
  s.filterMap id

/-- Embedding of `calculate_growth_rate(data, periods)` from
`src/src/analysis_utils.py`, that is `data.pct_change(periods) * 100` on a
series without missing input values: entry `i` is undefined for
`i < periods`, undefined when the base value is zero (NaN or infinity in
floating point), and otherwise the percent change against entry
`i - periods`. -/
def calculate_growth_rate (data : List ℚ) (periods : Nat) : List (Option ℚ) :=
  (List.range data.length).map (fun i =>
    if i < periods then none
    else if data.getD (i - periods) 0 = 0 then none
    else some ((data.getD i 0 / data.getD (i - periods) 0 - 1) * 100))

/-- Embedding of `calculate_moving_average(data, window)` from
`src/src/analysis_utils.py`, that is `data.rolling(window).mean()` on a
series without missing input values: entry `i` is undefined for
`i + 1 < window` (fewer than `window` observations available) and
otherwise the mean of the trailing window ending at `i`. -/
def calculate_moving_average (data : List ℚ) (window : Nat) : List (Option ℚ) :=
  (List.range data.length).map (fun i =>
    if i + 1 < window then none
    else some (((data.drop (i + 1 - window)).take window).sum / window))

/-- The list `start, start+1, ..., start+n-1` of rationals: the 0-based
integer index used by the trend regression. -/
def indexAsc (start : ℚ) : Nat → List ℚ
  | 0 => []
  | n + 1 => start :: indexAsc (start + 1) n

/-- The length of a list of rationals, as a rational. -/
def ratLen : List ℚ → ℚ
  | [] => 0
  | _ :: t => 1 + ratLen t

/-- Modelled from the spec: `detect_trend(series)` is imported by
`src/src/__init__.py` but its definition is absent from the source tree,
so it is modelled from the specification text: ordinary least squares of
the series values against a 0-based integer index over the non-missing
points, returning (slope, intercept, R squared), and returning
all-undefined (here `none`) when fewer than 2 valid points remain. -/
def detect_trend (s : List (Option ℚ)) : Option (ℚ × ℚ × ℚ) :=
  let ys := dropna s
  let m : ℚ := ratLen ys
  if ys.length < 2 then none
  else
    let xs : List ℚ := indexAsc 0 ys.length
    let xbar := xs.sum / m
    let ybar := ys.sum / m
    let sxx := (xs.map (fun x => (x - xbar) * (x - xbar))).sum
    let sxy := ((List.zip xs ys).map
      (fun p => (p.1 - xbar) * (p.2 - ybar))).sum
    let slope := sxy / sxx
    let intercept := ybar - slope * xbar
    let syy := (ys.map (fun y => (y - ybar) * (y - ybar))).sum
    let ssres := ((List.zip xs ys).map
      (fun p => (p.2 - (slope * p.1 + intercept)) *
                (p.2 - (slope * p.1 + intercept)))).sum
    some (slope, intercept, 1 - ssres / syy)

/-- Result record of the statsmodels `adfuller` routine, in source order:
test statistic, p-value, used lag, number of observations, critical
values. -/
structure ADFResult where
  stat : ℚ
  pvalue : ℚ
  usedLag : Nat
  nobs : Nat
  critValues : List (String × ℚ)
deriving DecidableEq

/-- The dictionary built by `test_stationarity`: the five `adfuller`
fields plus the boolean stationarity verdict at the 5 percent level.
Note that the record has no error field of any kind. -/
structure StationarityOutput where
  adfStat : ℚ
  pvalue : ℚ
  usedLag : Nat
  nobs : Nat
  critValues : List (String × ℚ)
  isStationary : Bool
deriving DecidableEq

/-- Embedding of `test_stationarity(data)` from
`src/src/analysis_utils.py`, parametric in the external `adfuller`
routine (statsmodels, outside this repository): the source drops missing
values, calls `adfuller` with no exception handling whatsoever, and builds
the output dictionary from the returned tuple.  Any exception raised by
`adfuller` therefore propagates unchanged.  The `verbose` printing of the
source is pure console output and is omitted. -/
def test_stationarity (adfuller : List ℚ → Except PyError ADFResult)
    (data : List (Option ℚ)) : Except PyError StationarityOutput :=
  match adfuller (dropna data) with
  | .error e => .error e
  | .ok r =>
      .ok ⟨r.stat, r.pvalue, r.usedLag, r.nobs, r.critValues,
           decide (r.pvalue < 0.05)⟩

/-- Models only the failure mode of the statsmodels `adfuller` routine on
too-short samples (it raises a `ValueError` when the sample cannot support
the regression, in particular for fewer than 3 observations); on longer
samples the numeric content is irrelevant to every claim and a fixed
placeholder result is returned. -/
def adfuller_model (xs : List ℚ) : Except PyError ADFResult :=
  if xs.length < 3 then
    .error (.valueError "sample size is too short to use selected regression component")
  else
    .ok ⟨0, 1, 0, xs.length, []⟩

/-- Mean of a list of reals (the column mean used by Pearson correlation). -/
noncomputable def colMean (xs : List ℝ) : ℝ :=
  xs.sum / xs.length

/-- Centered sum of squares of a column; zero exactly for constant
columns. -/
noncomputable def colSS (xs : List ℝ) : ℝ :=
  (xs.map (fun v => (v - colMean xs) * (v - colMean xs))).sum

/-- Centered sum of products of two columns. -/
noncomputable def colSP (xs ys : List ℝ) : ℝ :=
  ((List.zip xs ys).map
    (fun p => (p.1 - colMean xs) * (p.2 - colMean ys))).sum

/-- Pearson correlation coefficient of two columns, the pairwise statistic
computed by `DataFrame.corr`.  For a constant column the denominator is
zero; real division by zero yields 0 here, standing for the NaN that
pandas produces there. -/
noncomputable def pearson (xs ys : List ℝ) : ℝ :=
  colSP xs ys / Real.sqrt (colSS xs * colSS ys)

/-- Embedding of `calculate_correlation_matrix(data)` from
`src/src/analysis_utils.py`, that is `data.corr()` on a panel without
missing values: the square matrix of pairwise Pearson correlations of the
columns. -/
noncomputable def calculate_correlation_matrix (panel : List (List ℝ)) :
    List (List ℝ) :=
  panel.map (fun x => panel.map (fun y => pearson x y))

/-- Entry `(i, j)` of a matrix given as a list of rows. -/
def entry (M : List (List ℝ)) (i j : Nat) : ℝ :=
  (M.getD i []).getD j 0

/-- The top-level names defined by `src/src/analysis_utils.py`. -/
def analysis_utils_defs : List String :=
  ["calculate_growth_rate", "calculate_log_returns",
   "calculate_moving_average", "detrend_series",
   "calculate_correlation_matrix", "plot_time_series",
   "plot_multiple_series", "plot_correlation_heatmap",
   "descriptive_statistics", "seasonal_decomposition",
   "plot_seasonal_decomposition", "test_stationarity"]

/-- The top-level names defined by `src/src/data_fetchers.py`. -/
def data_fetchers_defs : List String :=
  ["FREDDataFetcher", "WorldBankDataFetcher", "PandasDataReaderFetcher",
   "create_sample_data"]

/-- The names `src/src/__init__.py` imports from `data_fetchers`. -/
def init_imports_data_fetchers : List String :=
  ["FREDDataFetcher", "WorldBankDataFetcher", "PandasDataReaderFetcher",
   "create_sample_data"]

/-- The names `src/src/__init__.py` imports from `analysis_utils`, in
source order. -/
def init_imports_analysis_utils : List String :=
  ["calculate_growth_rate", "calculate_moving_average", "detect_trend",
   "calculate_correlation_matrix", "plot_time_series",
   "plot_multiple_series", "plot_correlation_heatmap",
   "perform_stationarity_test", "calculate_summary_statistics"]

/-- Semantics of a Python `from M import a, b, ...` statement: the first
requested name that the module does not define raises an `ImportError`
naming it. -/
def from_import (moduleDefs names : List String) : Except PyError Unit :=
  match names.find? (fun nm => !(moduleDefs.contains nm)) with
  | some nm => .error (.importError nm)
  | none => .ok ()

/-- Embedding of executing `src/src/__init__.py`: the two from-import
statements in source order.  Succeeds only if both succeed. -/
def package_init : Except PyError Unit :=
  match from_import data_fetchers_defs init_imports_data_fetchers with
  | .error e => .error e
  | .ok _ => from_import analysis_utils_defs init_imports_analysis_utils

attribute [local semireducible] Rat.add Rat.mul Rat.inv Rat.sub Rat.ofScientific

/-- A concrete seed-to-stream map (all draws zero), used to instantiate
theorems at concrete inputs. -/
def zStream : Nat → Nat → ℚ := fun _ _ => 0

/-- A concrete stand-in for the floating-point exponential (constantly 1),
used to instantiate theorems at concrete inputs. -/
def oneExp : ℚ → ℚ := fun _ => 1

/-- A concrete incoming generator state. -/
def rng0 : RNG := ⟨fun _ => 0, 0⟩

/-- Another concrete incoming generator state, differing from `rng0`. -/
def rngAlt : RNG := ⟨fun _ => 1, 3⟩

/-- The panel produced by `create_sample_data` for one period from
2015-01-01 under the all-zero draw stream and constant exponential. -/
def sampleFrame1 : SampleFrame :=
  ⟨[⟨2015, 1, 31⟩], [20000], [5], [2], [2]⟩

/-- C10: executing the package `__init__` fails with an `ImportError`,
because `detect_trend` (and likewise `perform_stationarity_test` and
`calculate_summary_statistics`) is imported from `analysis_utils` but not
defined there — that module defines `test_stationarity` and
`descriptive_statistics` instead — so no name of the package is reachable
through its public interface. -/
theorem package_import_fails :
    package_init = Except.error (PyError.importError "detect_trend") ∧
    analysis_utils_defs.contains "detect_trend" = false ∧
    analysis_utils_defs.contains "perform_stationarity_test" = false ∧
    analysis_utils_defs.contains "calculate_summary_statistics" = false ∧
    analysis_utils_defs.contains "test_stationarity" = true ∧
    analysis_utils_defs.contains "descriptive_statistics" = true := by
  refine ⟨rfl, ?_, ?_, ?_, ?_, ?_⟩ <;> decide

/-- C1: `detect_trend` performs ordinary least squares of the values
against a 0-based index over the non-missing points; on the series
[0, 1, 2, 3, 4] it returns slope 1, intercept 0 and R squared 1, and with
fewer than 2 valid points it returns all-undefined instead of raising. -/
theorem detect_trend_ols :
    detect_trend [some 0, some 1, some 2, some 3, some 4] = some (1, 0, 1) ∧
    ∀ s : List (Option ℚ), (dropna s).length < 2 → detect_trend s = none := by
  constructor
  · decide
  · intro s h
    simp only [detect_trend]
    rw [if_pos h]

/-- Witness for C1: the second part of `detect_trend_ols` applied to a
series with a single valid point. -/
theorem detect_trend_ols_witness :
    detect_trend [none, some 5] = none :=
  detect_trend_ols.2 [none, some 5] (by decide)

/-- C3 (counterexample): on a series with 2 valid points, the exception of
the `adfuller` routine propagates out of `test_stationarity` — the call
raises instead of returning an error result object. -/
theorem test_stationarity_short_series_raises :
    test_stationarity adfuller_model [some 1, some 2] =
      Except.error (PyError.valueError
        "sample size is too short to use selected regression component") :=
  rfl

/-- C3 (amended): `test_stationarity` contains no exception handling and
never constructs an error result: whenever `adfuller` raises on the
series with missing values removed, the exception propagates unchanged. -/
theorem test_stationarity_propagates_adfuller_error
    (adf : List ℚ → Except PyError ADFResult) (data : List (Option ℚ))
    (e : PyError) (h : adf (dropna data) = Except.error e) :
    test_stationarity adf data = Except.error e := by
  unfold test_stationarity
  rw [h]

/-- Witness for C3: the propagation theorem applied to the modelled
`adfuller` on a 2-point series. -/
theorem test_stationarity_propagates_witness :
    adfuller_model (dropna [some 1, some 2]) =
      Except.error (PyError.valueError
        "sample size is too short to use selected regression component") ∧
    test_stationarity adfuller_model [some 1, some 2] =
      Except.error (PyError.valueError
        "sample size is too short to use selected regression component") :=
  ⟨rfl, test_stationarity_propagates_adfuller_error adfuller_model
    [some 1, some 2] _ rfl⟩

/-- C4: `create_sample_data` starts by reseeding the global generator with
the fixed constant 42, so its output panel does not depend on the incoming
generator state: two calls with identical arguments produce identical
panels. -/
theorem create_sample_data_deterministic (mt : Nat → Nat → ℚ)
    (rexp : ℚ → ℚ) (r1 r2 : RNG) (n : Int) (d : Date) (_h : 0 < n) :
    create_sample_data mt rexp r1 n d = create_sample_data mt rexp r2 n d :=
  rfl

/-- Witness for C4: determinism at one period from 2015-01-01, with two
different incoming generator states. -/
theorem create_sample_data_deterministic_witness :
    0 < (1 : Int) ∧
    create_sample_data zStream oneExp rng0 1 ⟨2015, 1, 1⟩ =
      create_sample_data zStream oneExp rngAlt 1 ⟨2015, 1, 1⟩ :=
  ⟨by decide, create_sample_data_deterministic zStream oneExp rng0 rngAlt 1
    ⟨2015, 1, 1⟩ (by decide)⟩

/-- C2 (counterexample): `create_sample_data` called with `n_periods = 0`
does not fail at all: it returns an empty panel.  No `InvalidParameter`
validation exists in the source. -/
theorem create_sample_data_zero_periods_succeeds :
    create_sample_data zStream oneExp rng0 0 ⟨2015, 1, 1⟩ =
      Except.ok ⟨[], [], [], [], []⟩ :=
  rfl

/-- C2 (amended): `create_sample_data` performs no validation of
`n_periods`: with `n_periods = 0` it returns an empty panel normally
(`pd.date_range` with the offset frequency `M` yields an empty index), and
with a negative `n_periods` the failure is the `ValueError` with message
`negative dimensions are not allowed` raised inside the first
`np.random.normal` call, not an `InvalidParameter` at the call
boundary. -/
theorem create_sample_data_no_invalid_parameter (mt : Nat → Nat → ℚ)
    (rexp : ℚ → ℚ) (rng : RNG) (d : Date) (n : Int) (hn : n < 0) :
    create_sample_data mt rexp rng 0 d = Except.ok ⟨[], [], [], [], []⟩ ∧
    create_sample_data mt rexp rng n d =
      Except.error (PyError.valueError
        "negative dimensions are not allowed") := by
  constructor
  · rfl
  · unfold create_sample_data np_normal
    simp only [if_pos hn]

/-- Witness for C2: the amended theorem at `n_periods = -1`. -/
theorem create_sample_data_no_invalid_parameter_witness :
    (-1 : Int) < 0 ∧
    (create_sample_data zStream oneExp rng0 0 ⟨2015, 1, 1⟩ =
        Except.ok ⟨[], [], [], [], []⟩ ∧
      create_sample_data zStream oneExp rng0 (-1) ⟨2015, 1, 1⟩ =
        Except.error (PyError.valueError
          "negative dimensions are not allowed")) :=
  ⟨by decide, create_sample_data_no_invalid_parameter zStream oneExp rng0
    ⟨2015, 1, 1⟩ (-1) (by decide)⟩

/-- C5: for a window `w` of at least 1, the moving average at every valid
index `i` with `i ≥ w - 1` is the arithmetic mean of the trailing window
ending at `i`, and every entry of the warm-up region (`i < w - 1`, that is
`i + 1 < w`) is undefined. -/
theorem calculate_moving_average_spec (s : List ℚ) (w i : Nat)
    (_hw : 1 ≤ w) (hi : i < s.length) :
    (calculate_moving_average s w)[i]? =
      some (if i + 1 < w then none
            else some (((s.drop (i + 1 - w)).take w).sum / w)) := by
  unfold calculate_moving_average
  rw [List.getElem?_map, List.getElem?_range hi]
  rfl

/-- Witness for C5: the moving average of [1, 2, 3] with window 2 at
index 2 is the mean of [2, 3]. -/
theorem calculate_moving_average_spec_witness :
    1 ≤ 2 ∧ 2 < ([1, 2, 3] : List ℚ).length ∧
    (calculate_moving_average [1, 2, 3] 2)[2]? = some (some (5 / 2)) := by
  refine ⟨by decide, by decide, ?_⟩
  have h := calculate_moving_average_spec [1, 2, 3] 2 2 (by decide) (by decide)
  simpa using h

/-- C6: the growth rate over 1 period of a constant series is 0 at every
defined entry (for the constant 0 the entries are undefined, since the
percent change divides by the base value), and for every series and every
`periods` the first `periods` entries are undefined. -/
theorem calculate_growth_rate_spec :
    (∀ (c : ℚ) (n i : Nat), 1 ≤ i → i < n →
      (calculate_growth_rate (List.replicate n c) 1)[i]? =
        some (if c = 0 then none else some 0)) ∧
    (∀ (s : List ℚ) (p i : Nat), i < p → i < s.length →
      (calculate_growth_rate s p)[i]? = some none) := by
  constructor
  · intro c n i h1 h2
    unfold calculate_growth_rate
    rw [List.length_replicate, List.getElem?_map, List.getElem?_range h2]
    have hd : ∀ k, k < n → (List.replicate n c).getD k 0 = c := by
      intro k hk
      rw [List.getD_eq_getElem?_getD, List.getElem?_replicate, if_pos hk]
      rfl
    have hnotlt : ¬ i < 1 := by omega
    rw [Option.map_some', if_neg hnotlt, hd (i - 1) (by omega), hd i h2]
    by_cases hc : c = 0
    · rw [if_pos hc, if_pos hc]
    · rw [if_neg hc, if_neg hc, div_self hc]
      norm_num
  · intro s p i h1 h2
    unfold calculate_growth_rate
    rw [List.getElem?_map, List.getElem?_range h2, Option.map_some', if_pos h1]

/-- Witness for C6: the constant series [5, 5, 5] has growth rate 0 at
index 1, and the series [7, 8] with 2 periods is undefined at index 1. -/
theorem calculate_growth_rate_spec_witness :
    (calculate_growth_rate (List.replicate 3 (5 : ℚ)) 1)[1]? = some (some 0) ∧
    (calculate_growth_rate [(7 : ℚ), 8] 2)[1]? = some none := by
  constructor
  · have h := calculate_growth_rate_spec.1 5 3 1 (by decide) (by decide)
    simpa using h
  · exact calculate_growth_rate_spec.2 [7, 8] 2 1 (by decide) (by decide)

/-- The accumulator form of `cumsum` preserves length. -/
theorem cumsumAux_length (acc : ℚ) (xs : List ℚ) :
    (cumsumAux acc xs).length = xs.length := by
  induction xs generalizing acc with
  | nil => rfl
  | cons a t ih => simp [cumsumAux, ih]

/-- Helper: `cumsum` preserves length. -/
theorem cumsum_length (xs : List ℚ) : (cumsum xs).length = xs.length :=
  cumsumAux_length 0 xs

/-- Helper: `monthEnds` produces exactly `k` dates. -/
theorem monthEnds_length (y : Int) (m : Nat) (k : Nat) :
    (monthEnds y m k).length = k := by
  induction k generalizing y m with
  | zero => rfl
  | succ k ih => simp [monthEnds, ih]

/-- Helper: for a non-negative period count, `create_sample_data` returns
the panel in fully explicit form. -/
theorem create_sample_data_ok (mt : Nat → Nat → ℚ) (rexp : ℚ → ℚ)
    (rng : RNG) (n : Int) (d : Date) (hn : 0 ≤ n) :
    create_sample_data mt rexp rng n d = Except.ok
      { index := monthEnds d.year d.month n.toNat,
        gdp := (cumsum (np_draws 0.02 0.01 n.toNat (np_seed mt 42 rng)).1).map
          (fun g => 20000 * rexp g),
        unemployment_rate :=
          (cumsum (np_draws 0 0.5 n.toNat
              (np_draws 0.02 0.01 n.toNat (np_seed mt 42 rng)).2).1).map
            (fun u => clipQ 2 15 (5 + u * 0.1)),
        inflation_rate :=
          (np_draws 0 0.3 n.toNat (np_draws 0 0.5 n.toNat
              (np_draws 0.02 0.01 n.toNat (np_seed mt 42 rng)).2).2).1.map
            (fun z => 2 + z),
        interest_rate :=
          (np_draws 0 0.5 n.toNat (np_draws 0 0.3 n.toNat
              (np_draws 0 0.5 n.toNat
                (np_draws 0.02 0.01 n.toNat (np_seed mt 42 rng)).2).2).2).1.map
            (fun z => max 0 (2 + z)) } := by
  unfold create_sample_data date_range_M np_normal
  simp only [if_neg (by omega : ¬ n < 0)]

/-- C8 (amended): for every positive period count, the panel has exactly
`n_periods` rows in every column, and its index is the monthly month-end
date sequence of length `n_periods` whose first element is the last day of
the month containing the start date — not the start date itself unless
that date is a month end. -/
theorem create_sample_data_row_count_and_index (mt : Nat → Nat → ℚ)
    (rexp : ℚ → ℚ) (rng : RNG) (n : Int) (d : Date) (f : SampleFrame)
    (hn : 0 < n) (h : create_sample_data mt rexp rng n d = Except.ok f) :
    f.index = monthEnds d.year d.month n.toNat ∧
    f.index.head? = some (monthEnd d.year d.month) ∧
    f.index.length = n.toNat ∧ f.gdp.length = n.toNat ∧
    f.unemployment_rate.length = n.toNat ∧
    f.inflation_rate.length = n.toNat ∧
    f.interest_rate.length = n.toNat := by
  rw [create_sample_data_ok mt rexp rng n d (le_of_lt hn)] at h
  injection h with h
  subst h
  refine ⟨rfl, ?_, monthEnds_length _ _ _, ?_, ?_, ?_, ?_⟩
  · obtain ⟨k, hk⟩ : ∃ k, n.toNat = k + 1 := ⟨n.toNat - 1, by omega⟩
    rw [hk]
    rfl
  · simp [np_draws, cumsum_length]
  · simp [np_draws, cumsum_length]
  · simp [np_draws]
  · simp [np_draws]

/-- C8 (counterexample): for one period from 2015-01-01 the index starts
at 2015-01-31 (the month end), not at the requested start date. -/
theorem create_sample_data_index_not_start_date :
    (create_sample_data zStream oneExp rng0 1 ⟨2015, 1, 1⟩).toOption.map
        (fun f => f.index.head?) = some (some ⟨2015, 1, 31⟩) ∧
    (⟨2015, 1, 31⟩ : Date) ≠ ⟨2015, 1, 1⟩ := by
  constructor
  · rw [create_sample_data_ok zStream oneExp rng0 1 ⟨2015, 1, 1⟩ (by decide)]
    rfl
  · decide

/-- Witness for C8: the amended theorem at one period from 2015-01-01. -/
theorem create_sample_data_row_count_witness :
    0 < (1 : Int) ∧
    create_sample_data zStream oneExp rng0 1 ⟨2015, 1, 1⟩ =
      Except.ok sampleFrame1 ∧
    (sampleFrame1.index = monthEnds 2015 1 (1 : Int).toNat ∧
     sampleFrame1.index.head? = some (monthEnd 2015 1) ∧
     sampleFrame1.index.length = (1 : Int).toNat ∧
     sampleFrame1.gdp.length = (1 : Int).toNat ∧
     sampleFrame1.unemployment_rate.length = (1 : Int).toNat ∧
     sampleFrame1.inflation_rate.length = (1 : Int).toNat ∧
     sampleFrame1.interest_rate.length = (1 : Int).toNat) := by
  have hok : create_sample_data zStream oneExp rng0 1 ⟨2015, 1, 1⟩ =
      Except.ok sampleFrame1 := by
    rw [create_sample_data_ok zStream oneExp rng0 1 ⟨2015, 1, 1⟩ (by decide)]
    exact congrArg Except.ok (by decide)
  exact ⟨by decide, hok, create_sample_data_row_count_and_index zStream oneExp
    rng0 1 ⟨2015, 1, 1⟩ sampleFrame1 (by decide) hok⟩

/-- C9: every value of the unemployment column lies in [2, 15] (the source
clips it there) and every value of the interest-rate column is
non-negative (the source floors it at 0). -/
theorem create_sample_data_value_bounds (mt : Nat → Nat → ℚ)
    (rexp : ℚ → ℚ) (rng : RNG) (n : Int) (d : Date) (f : SampleFrame)
    (hn : 0 < n) (h : create_sample_data mt rexp rng n d = Except.ok f) :
    (f.unemployment_rate.all fun x => decide (2 ≤ x) && decide (x ≤ 15)) =
      true ∧
    (f.interest_rate.all fun x => decide (0 ≤ x)) = true := by
  rw [create_sample_data_ok mt rexp rng n d (le_of_lt hn)] at h
  injection h with h
  subst h
  constructor
  · rw [List.all_eq_true]
    intro x hx
    rw [List.mem_map] at hx
    obtain ⟨u, _, rfl⟩ := hx
    simp only [clipQ, Bool.and_eq_true, decide_eq_true_eq]
    exact ⟨le_min (le_max_right _ _) (by norm_num), min_le_right _ _⟩
  · rw [List.all_eq_true]
    intro x hx
    rw [List.mem_map] at hx
    obtain ⟨z, _, rfl⟩ := hx
    simp only [decide_eq_true_eq]
    exact le_max_left _ _

/-- Witness for C9: the bounds at one period from 2015-01-01, where the
unemployment value is 5 and the interest value is 2. -/
theorem create_sample_data_value_bounds_witness :
    0 < (1 : Int) ∧
    create_sample_data zStream oneExp rng0 1 ⟨2015, 1, 1⟩ =
      Except.ok sampleFrame1 ∧
    ((sampleFrame1.unemployment_rate.all
        fun x => decide (2 ≤ x) && decide (x ≤ 15)) = true ∧
     (sampleFrame1.interest_rate.all fun x => decide (0 ≤ x)) = true) := by
  have hok : create_sample_data zStream oneExp rng0 1 ⟨2015, 1, 1⟩ =
      Except.ok sampleFrame1 := by
    rw [create_sample_data_ok zStream oneExp rng0 1 ⟨2015, 1, 1⟩ (by decide)]
    exact congrArg Except.ok (by decide)
  exact ⟨by decide, hok, create_sample_data_value_bounds zStream oneExp rng0 1
    ⟨2015, 1, 1⟩ sampleFrame1 (by decide) hok⟩

/-- Helper: the centered sum of products is symmetric in its two
columns. -/
theorem colSP_comm (xs ys : List ℝ) : colSP xs ys = colSP ys xs := by
  unfold colSP
  conv_rhs => rw [← List.zip_swap xs ys, List.map_map]
  congr 1
  apply List.map_congr_left
  intro p _
  simp only [Function.comp_apply, Prod.fst_swap, Prod.snd_swap]
  ring

/-- Helper: zipping a list with itself and mapping is mapping over the
diagonal. -/
theorem zip_self_map (xs : List ℝ) (f : ℝ × ℝ → ℝ) :
    (List.zip xs xs).map f = xs.map (fun x => f (x, x)) := by
  induction xs with
  | nil => rfl
  | cons a t ih => rw [List.zip_cons_cons, List.map_cons, List.map_cons, ih]

/-- Helper: the centered sum of products of a column with itself is its
centered sum of squares. -/
theorem colSP_self (xs : List ℝ) : colSP xs xs = colSS xs := by
  unfold colSP colSS
  rw [zip_self_map]

/-- Helper: a centered sum of squares is non-negative. -/
theorem colSS_nonneg (xs : List ℝ) : 0 ≤ colSS xs := by
  unfold colSS
  apply List.sum_nonneg
  intro x hx
  rw [List.mem_map] at hx
  obtain ⟨v, _, rfl⟩ := hx
  exact mul_self_nonneg _

/-- Helper: Pearson correlation is symmetric. -/
theorem pearson_comm (xs ys : List ℝ) : pearson xs ys = pearson ys xs := by
  unfold pearson
  rw [colSP_comm, mul_comm]

/-- Helper: the Pearson correlation of a non-constant column with itself
is 1. -/
theorem pearson_self (xs : List ℝ) (h : colSS xs ≠ 0) : pearson xs xs = 1 := by
  unfold pearson
  rw [colSP_self, Real.sqrt_mul_self (colSS_nonneg xs), div_self h]

/-- Helper: the correlation-matrix entry at (i, j) is the Pearson
correlation of columns i and j. -/
theorem entry_corrMatrix (P : List (List ℝ)) (i j : Nat)
    (hi : i < P.length) (hj : j < P.length) :
    entry (calculate_correlation_matrix P) i j =
      pearson (P.getD i []) (P.getD j []) := by
  unfold entry calculate_correlation_matrix
  simp [List.getD_eq_getElem?_getD, List.getElem?_map,
    List.getElem?_eq_getElem hi, List.getElem?_eq_getElem hj]

/-- C7 (counterexample): the panel [[1,1],[0,1],[1,0]] has two
non-constant columns, yet the diagonal entry of its correlation matrix at
the constant column [1,1] is not 1 (it is the division-by-zero value
standing for the NaN pandas produces for a zero-variance column). -/
theorem correlation_matrix_constant_column_diag :
    colSS ([0, 1] : List ℝ) ≠ 0 ∧ colSS ([1, 0] : List ℝ) ≠ 0 ∧
    entry (calculate_correlation_matrix [[1, 1], [0, 1], [1, 0]]) 0 0 ≠ 1 := by
  refine ⟨by norm_num [colSS, colMean], by norm_num [colSS, colMean], ?_⟩
  have he : entry (calculate_correlation_matrix [[1, 1], [0, 1], [1, 0]]) 0 0 =
      pearson [1, 1] [1, 1] := rfl
  have hss : colSS ([1, 1] : List ℝ) = 0 := by norm_num [colSS, colMean]
  have hsp : colSP ([1, 1] : List ℝ) [1, 1] = 0 := by
    rw [colSP_self, hss]
  rw [he]
  unfold pearson
  rw [hsp, hss]
  norm_num

/-- C7 (amended): for every panel with at least 2 columns, all of them
non-constant, the correlation matrix is symmetric and every diagonal entry
equals 1. -/
theorem correlation_matrix_symmetric_diag_one (P : List (List ℝ)) (i j : Nat)
    (_hcols : 2 ≤ P.length) (hnc : ∀ c ∈ P, colSS c ≠ 0)
    (hi : i < P.length) (hj : j < P.length) :
    entry (calculate_correlation_matrix P) i j =
      entry (calculate_correlation_matrix P) j i ∧
    entry (calculate_correlation_matrix P) i i = 1 := by
  refine ⟨?_, ?_⟩
  · rw [entry_corrMatrix P i j hi hj, entry_corrMatrix P j i hj hi,
      pearson_comm]
  · rw [entry_corrMatrix P i i hi hi]
    apply pearson_self
    apply hnc
    rw [List.getD_eq_getElem?_getD, List.getElem?_eq_getElem hi,
      Option.getD_some]
    exact List.getElem_mem hi

/-- Witness for C7: the 2-column panel [[0,1],[1,0]] of non-constant
columns, at entries (0,1) and (0,0). -/
theorem correlation_matrix_symmetric_diag_one_witness :
    2 ≤ ([[0, 1], [1, 0]] : List (List ℝ)).length ∧
    colSS ([0, 1] : List ℝ) ≠ 0 ∧ colSS ([1, 0] : List ℝ) ≠ 0 ∧
    (entry (calculate_correlation_matrix [[0, 1], [1, 0]]) 0 1 =
       entry (calculate_correlation_matrix [[0, 1], [1, 0]]) 1 0 ∧
     entry (calculate_correlation_matrix [[0, 1], [1, 0]]) 0 0 = 1) := by
  have hnc : ∀ c ∈ ([[0, 1], [1, 0]] : List (List ℝ)), colSS c ≠ 0 := by
    intro c hc
    rw [List.mem_cons, List.mem_cons] at hc
    rcases hc with rfl | hc
    · norm_num [colSS, colMean]
    · rcases hc with rfl | hc
      · norm_num [colSS, colMean]
      · simp at hc
  exact ⟨by decide, by norm_num [colSS, colMean], by norm_num [colSS, colMean],
    correlation_matrix_symmetric_diag_one [[0, 1], [1, 0]] 0 1 (by decide) hnc
      (by decide) (by decide)⟩
